import Mathlib

/-!
Verification of the python-gpr native bridge (`src/python_gpr/_core.cpp`).

The repository ships successive revisions of `_core.cpp` concatenated in one
file; the definitions below embed the final "enhanced" revision, the one the
module actually registers (exception hierarchy `GPRError`/`GPRFileError`/...,
`validate_input_file` with error codes, `cleanup_buffer_safe`,
`get_image_info`, `get_raw_image_data`, `modify_metadata`,
`extract_exif_metadata`, `convert_gpr_to_dng`).  The last two revisions of
`get_raw_image_data` differ only in the base-object argument handed to the
NumPy array constructor; every allocator call and every thrown error is
identical between them, so one embedding covers both.

Modelling conventions:
* The operation allocator (`gpr_global_malloc` / `gpr_global_free`) is
  observed through an event trace: each buffer carries a numeric id, and an
  operation returns its result together with the list of `alloc`/`free`
  events it performed, in program order.
* The file system is a map from paths to `some size` when `std::ifstream`
  opens the file (`is_open()` true; a freshly and successfully opened stream
  has no error flags set, so `good()` holds and the branch of
  `validate_input_file` that throws code -3 is unreachable), and `none` when
  opening fails (`good()` and `is_open()` both false: code -2).
* Behaviour of the external native codec (`gpr_convert_gpr_to_raw`,
  `gpr_convert_gpr_to_dng`, `gpr_convert_dng_to_dng`, `gpr_parse_metadata`)
  and of `read_from_file` / `write_to_file` is an oracle carried by a
  `World` value: outcome of each native call, read/write success per path.
* `gpr_parameters_set_defaults` / `gpr_parameters_destroy` manage the
  parameter block; a default-initialised block owns no allocator memory, so
  these emit no allocator events.
* Pixel words are `Fin 65536` (the uint16 reinterpretation of the native
  byte buffer); the normalised float path is modelled with exact rationals,
  the real-number semantics of the C++ division by 65535.0f.
-/

namespace PythonGpr

/-- One call on the operation allocator: `Alloc` or `Free` of the buffer with
the given id. -/
inductive Event where
  | alloc (id : Nat)
  | free (id : Nat)
deriving DecidableEq, Repr

/-- The allocator calls an operation performed, in program order. -/
abbrev Trace := List Event

def isAllocEvent : Event → Bool
  | Event.alloc _ => true
  | Event.free _ => false

def isFreeEvent : Event → Bool
  | Event.alloc _ => false
  | Event.free _ => true

/-- Number of `Alloc` calls in a trace. -/
def allocCount (tr : Trace) : Nat := (tr.filter isAllocEvent).length

/-- Number of `Free` calls in a trace. -/
def freeCount (tr : Trace) : Nat := (tr.filter isFreeEvent).length

/-- A trace is balanced when every `Alloc` is matched by a `Free`. -/
def balanced (tr : Trace) : Prop := allocCount tr = freeCount tr

instance (tr : Trace) : Decidable (balanced tr) := by
  unfold balanced; infer_instance

/-- The typed error taxonomy of the bridge, one constructor per exception
class of `_core.cpp`.  `GenericError` is the base class `GPRError`: it is the
only kind a caller cannot catch more specifically.  Each constructor stores
the full `what()` message (including the class prefix the C++ constructor
prepends) plus the structured context fields of that class. -/
inductive GPRErr where
  | FileError (message : String) (filepath : String) (errorCode : Int)
  | MemoryError (message : String) (requestedSize : Nat)
  | ParameterError (message : String) (parameterName : String)
  | FormatError (message : String) (format : String)
  | ConversionError (message : String) (errorCode : Int)
  | GenericError (message : String) (errorCode : Int)
deriving DecidableEq, Repr

/-- `GPRFileError(message, filepath, error_code)`: prefixes the message. -/
def mkFileError (message filepath : String) (errorCode : Int) : GPRErr :=
  GPRErr.FileError ("GPR File Error: " ++ message) filepath errorCode

/-- `GPRMemoryError(message, requested_size)`: prefixes the message. -/
def mkMemoryError (message : String) (requestedSize : Nat) : GPRErr :=
  GPRErr.MemoryError ("GPR Memory Error: " ++ message) requestedSize

/-- `GPRParameterError(message, parameter_name)`: prefixes the message. -/
def mkParameterError (message parameterName : String) : GPRErr :=
  GPRErr.ParameterError ("GPR Parameter Error: " ++ message) parameterName

/-- `GPRFormatError(message, format)`: prefixes the message. -/
def mkFormatError (message format : String) : GPRErr :=
  GPRErr.FormatError ("GPR Format Error: " ++ message) format

/-- `GPRConversionError(message, error_code = 0)`: prefixes the message. -/
def mkConversionError (message : String) : GPRErr :=
  GPRErr.ConversionError ("GPR Conversion Error: " ++ message) 0

/-- `validate_input_file` of `_core.cpp`.  `fs` maps a path to `some size`
when `std::ifstream` opens it and to `none` when opening fails.  The source
first tests `!file.good()`: when open failed, `is_open()` is false and the
function throws `GPRFileError(..., -2)`; the sibling branch throwing -3
requires a successfully opened stream whose `good()` is already false, which
a freshly opened `std::ifstream` never exhibits, so that branch is
unreachable and has no counterpart in the map model.  Afterwards the size
obtained from `tellg()` is tested with `size <= 0` (sizes are non-negative,
hence `= 0`) and code -4 is thrown for an empty file. -/
def validate_input_file (fs : String → Option Nat) (filepath : String) :
    Except GPRErr Unit :=
  match fs filepath with
  | none =>
      Except.error
        (mkFileError ("Input file does not exist or cannot be accessed: " ++ filepath)
          filepath (-2))
  | some size =>
      if size = 0 then
        Except.error
          (mkFileError ("Input file is empty or corrupted: " ++ filepath) filepath (-4))
      else
        Except.ok ()

/-- A `gpr_buffer`: the pointer (id of the allocation, `none` for null) and
the recorded size. -/
structure GprBuffer where
  pointer : Option Nat
  size : Nat
deriving DecidableEq, Repr

/-- `cleanup_buffer_safe` of `_core.cpp`: frees a non-null buffer exactly
once, then nulls the pointer and zeroes the size; a null buffer is left
untouched and no allocator call happens. -/
def cleanup_buffer_safe (b : GprBuffer) : GprBuffer × Trace :=
  match b.pointer with
  | some p => (⟨none, 0⟩, [Event.free p])
  | none => (b, [])

/-- `get_error_context` of `_core.cpp`. -/
def get_error_context (operation input_path output_path : String) : String :=
  let context := "Operation: " ++ operation ++ ", Input: " ++ input_path
  if output_path = "" then context else context ++ ", Output: " ++ output_path

/-- An output `gpr_buffer` as produced by a successful native call:
whether the pointer it left behind is null, the byte size it recorded, and
the uint16 reinterpretation of its contents (`word i` is the value read by
`reinterpret_cast<uint16_t*>(buffer)[i]`). -/
structure RawBuffer where
  isNull : Bool
  byteSize : Nat
  word : Nat → Fin 65536

/-- Outcome of one call into the native codec: a boolean success with an
output buffer, a boolean failure, a thrown `std::exception` with its
`what()` text, or a thrown value of unknown type. -/
inductive NativeOutcome where
  | success (buf : RawBuffer)
  | failure
  | raiseStd (msg : String)
  | raiseUnknown

/-- The `gpr_exif_info` fields touched by `_core.cpp` (strings, uint16
numerics, rationals as numerator/denominator pairs, enum codes as integers).
The fixed char-array capacities (`CAMERA_MAKE_SIZE`, ...) come from the
external `gpr.h` header that is not part of this repository, so the strncpy
truncation to those capacities is not reproduced: the model stores the full
string written by the update. -/
structure ExifInfo where
  camera_make : String
  camera_model : String
  camera_serial : String
  software_version : String
  user_comment : String
  image_description : String
  iso_speed_rating : Nat
  focal_length_in_35mm_film : Nat
  saturation : Nat
  exposure_time : Nat × Nat
  f_stop_number : Nat × Nat
  aperture : Nat × Nat
  focal_length : Nat × Nat
  exposure_program : Nat
  metering_mode : Nat
  light_source : Nat
  white_balance : Nat
deriving DecidableEq, Repr

/-- A Python value handed to `modify_metadata` in the `exif_updates` dict:
a str, an int, a 2-tuple of ints, or anything else (a wrong-typed value: the
`py::isinstance` / `rational.size() == 2` guards make every branch ignore
it). -/
inductive PyValue where
  | str (s : String)
  | int (n : Nat)
  | tuple2 (a b : Nat)
  | other
deriving DecidableEq, Repr

/-- One iteration of the update loop of `modify_metadata`: the if/else-if
chain over the key combined with the `py::isinstance` type guard of each
branch.  A key matching no branch, or a recognised key whose value fails the
type guard, falls off the end of the chain and leaves the record unchanged:
the source has no final else and raises nothing. -/
def apply_exif_update (exif : ExifInfo) (key : String) (value : PyValue) : ExifInfo :=
  if key = "camera_make" then
    match value with
    | PyValue.str v => { exif with camera_make := v }
    | _ => exif
  else if key = "camera_model" then
    match value with
    | PyValue.str v => { exif with camera_model := v }
    | _ => exif
  else if key = "camera_serial" then
    match value with
    | PyValue.str v => { exif with camera_serial := v }
    | _ => exif
  else if key = "software_version" then
    match value with
    | PyValue.str v => { exif with software_version := v }
    | _ => exif
  else if key = "user_comment" then
    match value with
    | PyValue.str v => { exif with user_comment := v }
    | _ => exif
  else if key = "image_description" then
    match value with
    | PyValue.str v => { exif with image_description := v }
    | _ => exif
  else if key = "iso_speed_rating" then
    match value with
    | PyValue.int v => { exif with iso_speed_rating := v }
    | _ => exif
  else if key = "focal_length_in_35mm_film" then
    match value with
    | PyValue.int v => { exif with focal_length_in_35mm_film := v }
    | _ => exif
  else if key = "saturation" then
    match value with
    | PyValue.int v => { exif with saturation := v }
    | _ => exif
  else if key = "exposure_time_rational" then
    match value with
    | PyValue.tuple2 a b => { exif with exposure_time := (a, b) }
    | _ => exif
  else if key = "f_stop_number_rational" then
    match value with
    | PyValue.tuple2 a b => { exif with f_stop_number := (a, b) }
    | _ => exif
  else if key = "aperture_rational" then
    match value with
    | PyValue.tuple2 a b => { exif with aperture := (a, b) }
    | _ => exif
  else if key = "focal_length_rational" then
    match value with
    | PyValue.tuple2 a b => { exif with focal_length := (a, b) }
    | _ => exif
  else if key = "exposure_program" then
    match value with
    | PyValue.int v => { exif with exposure_program := v }
    | _ => exif
  else if key = "metering_mode" then
    match value with
    | PyValue.int v => { exif with metering_mode := v }
    | _ => exif
  else if key = "light_source" then
    match value with
    | PyValue.int v => { exif with light_source := v }
    | _ => exif
  else if key = "white_balance" then
    match value with
    | PyValue.int v => { exif with white_balance := v }
    | _ => exif
  else
    exif

/-- The field names the update loop of `modify_metadata` recognises. -/
def recognized_exif_keys : List String :=
  ["camera_make", "camera_model", "camera_serial", "software_version",
   "user_comment", "image_description", "iso_speed_rating",
   "focal_length_in_35mm_film", "saturation", "exposure_time_rational",
   "f_stop_number_rational", "aperture_rational", "focal_length_rational",
   "exposure_program", "metering_mode", "light_source", "white_balance"]

/-- The environment one operation runs in: the file system, the behaviour of
`read_from_file` / `write_to_file` per path, the outcome of each native
codec entry point, and the metadata `gpr_parse_metadata` yields. -/
structure World where
  fs : String → Option Nat
  readOk : String → Bool
  writeOk : String → Bool
  convertGprToRaw : NativeOutcome
  convertGprToDng : NativeOutcome
  convertDngToDng : NativeOutcome
  parseMetadataOk : Bool
  parsedExif : ExifInfo

/-- The `ImageInfo` struct of `_core.cpp`.  Width/height/channels are C++
`int`; every value the code ever stores in them is a positive literal, so
they are carried as `Nat`. -/
structure ImageInfo where
  width : Nat
  height : Nat
  channels : Nat
  format : String
  data_size : Nat
deriving DecidableEq, Repr

/-- Backing storage of a returned NumPy array: either the native output
buffer itself (zero-copy view over allocation `id`; `word` its uint16
contents) or host-owned storage with rational element values (`value i` is
element `i` in row-major order; only indices below height*width are
meaningful). -/
inductive Backing where
  | native (id : Nat) (word : Nat → Fin 65536)
  | host (value : Nat → ℚ)

/-- A returned NumPy array: shape `(rows, cols)`, byte strides, and the
backing storage. -/
structure PyArray where
  shape : Nat × Nat
  strides : Nat × Nat
  backing : Backing

/-- `get_image_info` of `_core.cpp`.  Validates the input path, reads the
file into an input buffer (allocation id `base`), and then, without looking
at the bytes read, fills the struct with hard-coded defaults: width 4000,
height 3000, channels 1, format uint16, and `data_size` computed from them
with `sizeof(uint16_t)`.  On success it destroys the parameter block and
frees the input buffer; a read failure throws `GPRConversionError` with the
buffer still null, so nothing is freed. -/
def get_image_info (w : World) (input_path : String) (base : Nat) :
    Except GPRErr ImageInfo × Trace :=
  match validate_input_file w.fs input_path with
  | Except.error e => (Except.error e, [])
  | Except.ok _ =>
    if w.readOk input_path then
      (Except.ok ⟨4000, 3000, 1, "uint16", 4000 * 3000 * 1 * 2⟩,
        [Event.alloc base, Event.free base])
    else
      (Except.error (mkConversionError ("Failed to read input file: " ++ input_path)), [])

/-- `get_raw_image_data` of `_core.cpp` (the two final revisions differ only
in the base object handed to the NumPy constructor; see the file comment).
Buffer ids: 0 is the input buffer of the nested `get_image_info` call, 1 the
input buffer of the extraction itself, 2 the native output buffer of
`gpr_convert_gpr_to_raw`.  Steps, in source order: validate the path; reject
a dtype other than uint16/float32 with `GPRParameterError` (the source
message encloses the dtype in single quotes, elided here because the
supporting string is built by joining the supported list with a comma);
call `get_image_info`; reject non-positive dimensions with
`GPRFormatError`; read the input file; run the native conversion; reject a
null or empty output buffer; reject an output smaller than
width*height*sizeof(uint16_t); build the array — uint16: a view whose data
pointer is the native output buffer, shape `{height, width}`, strides
`{width*2, 2}`, no allocator call; float32: a host array whose element `i`
is `raw[i] / 65535.0f` (exact rational here), C-contiguous after reshape —
then destroy parameters, free the input buffer, and free the output buffer
only on the float32 path (the uint16 comment in the source reads: the NumPy
array owns the data, so do not free it). -/
def get_raw_image_data (w : World) (input_path dtype : String) :
    Except GPRErr PyArray × Trace :=
  match validate_input_file w.fs input_path with
  | Except.error e => (Except.error e, [])
  | Except.ok _ =>
  if dtype ≠ "uint16" ∧ dtype ≠ "float32" then
    (Except.error (mkParameterError
        ("Unsupported dtype " ++ dtype ++ ". Supported types: " ++
          String.intercalate ", " ["uint16", "float32"]) "dtype"), [])
  else
  match get_image_info w input_path 0 with
  | (Except.error e, tr0) => (Except.error e, tr0)
  | (Except.ok info, tr0) =>
  if info.width = 0 ∨ info.height = 0 then
    (Except.error (mkFormatError
        ("Invalid image dimensions: " ++ toString info.width ++ "x" ++
          toString info.height) ""), tr0)
  else
  if ¬ w.readOk input_path then
    (Except.error (mkFileError "Failed to read input file for data extraction"
        input_path (-1)), tr0)
  else
  match w.convertGprToRaw with
  | NativeOutcome.failure =>
      (Except.error (mkConversionError
          ("Failed to convert GPR to raw format for data extraction (" ++
            get_error_context "GPR to raw conversion for data extraction" input_path "" ++
            ")")), tr0 ++ [Event.alloc 1, Event.free 1])
  | NativeOutcome.raiseStd msg =>
      (Except.error (mkConversionError
          ("Error extracting raw image data: " ++ msg ++ " (" ++
            get_error_context "raw image data extraction" input_path "" ++ ")")),
        tr0 ++ [Event.alloc 1, Event.free 1])
  | NativeOutcome.raiseUnknown =>
      (Except.error (mkConversionError
          ("Unknown error during raw image data extraction (" ++
            get_error_context "raw image data extraction" input_path "" ++ ")")),
        tr0 ++ [Event.alloc 1, Event.free 1])
  | NativeOutcome.success buf =>
    if buf.isNull then
      (Except.error (mkConversionError
          "Conversion produced empty output buffer during data extraction"),
        tr0 ++ [Event.alloc 1, Event.free 1])
    else if buf.byteSize = 0 then
      (Except.error (mkConversionError
          "Conversion produced empty output buffer during data extraction"),
        tr0 ++ [Event.alloc 1, Event.alloc 2, Event.free 1, Event.free 2])
    else if buf.byteSize < info.width * info.height * 2 then
      (Except.error (mkFormatError
          ("Output buffer size (" ++ toString buf.byteSize ++
            ") is smaller than expected (" ++
            toString (info.width * info.height * 2) ++ ")") ""),
        tr0 ++ [Event.alloc 1, Event.alloc 2, Event.free 1, Event.free 2])
    else if dtype = "uint16" then
      (Except.ok
        { shape := (info.height, info.width),
          strides := (info.width * 2, 2),
          backing := Backing.native 2 buf.word },
        tr0 ++ [Event.alloc 1, Event.alloc 2, Event.free 1])
    else
      (Except.ok
        { shape := (info.height, info.width),
          strides := (info.width * 4, 4),
          backing := Backing.host (fun i => ((buf.word i : Nat) : ℚ) / 65535) },
        tr0 ++ [Event.alloc 1, Event.alloc 2, Event.free 1, Event.free 2])

/-- `convert_gpr_to_dng` of `_core.cpp` (the enhanced revision).  Buffer ids:
0 the input buffer, 1 the native output buffer.  Validate, read, convert,
reject an empty output, write the output file, then release parameters and
both buffers; every catch block performs the same releases before
rethrowing or wrapping. -/
def convert_gpr_to_dng (w : World) (input_path output_path : String) :
    Except GPRErr Bool × Trace :=
  match validate_input_file w.fs input_path with
  | Except.error e => (Except.error e, [])
  | Except.ok _ =>
  if ¬ w.readOk input_path then
    (Except.error (mkFileError "Failed to read input GPR file" input_path (-1)), [])
  else
  match w.convertGprToDng with
  | NativeOutcome.failure =>
      (Except.error (mkConversionError
          ("GPR to DNG conversion failed (" ++
            get_error_context "GPR to DNG conversion" input_path output_path ++ ")")),
        [Event.alloc 0, Event.free 0])
  | NativeOutcome.raiseStd msg =>
      (Except.error (mkConversionError
          ("Unexpected error during conversion: " ++ msg ++ " (" ++
            get_error_context "GPR to DNG conversion" input_path output_path ++ ")")),
        [Event.alloc 0, Event.free 0])
  | NativeOutcome.raiseUnknown =>
      (Except.error (mkConversionError
          ("Unknown error during conversion (" ++
            get_error_context "GPR to DNG conversion" input_path output_path ++ ")")),
        [Event.alloc 0, Event.free 0])
  | NativeOutcome.success buf =>
    if buf.isNull then
      (Except.error (mkConversionError "Conversion produced empty output buffer"),
        [Event.alloc 0, Event.free 0])
    else if buf.byteSize = 0 then
      (Except.error (mkConversionError "Conversion produced empty output buffer"),
        [Event.alloc 0, Event.alloc 1, Event.free 0, Event.free 1])
    else if ¬ w.writeOk output_path then
      (Except.error (mkFileError "Failed to write output DNG file" output_path (-1)),
        [Event.alloc 0, Event.alloc 1, Event.free 0, Event.free 1])
    else
      (Except.ok true, [Event.alloc 0, Event.alloc 1, Event.free 0, Event.free 1])

/-- `extract_exif_metadata` of `_core.cpp`.  Buffer id 0 is the input
buffer.  Validate, read, `gpr_parse_metadata`, build the result dictionary
from `parameters.exif_info` (modelled by returning the parsed record; the
dictionary entries are projections of it plus derived decimal values), then
destroy parameters and free the input buffer on every path that got that
far. -/
def extract_exif_metadata (w : World) (input_path : String) :
    Except GPRErr ExifInfo × Trace :=
  match validate_input_file w.fs input_path with
  | Except.error e => (Except.error e, [])
  | Except.ok _ =>
  if ¬ w.readOk input_path then
    (Except.error (mkFileError "Failed to read input file for metadata extraction"
        input_path (-1)), [])
  else if ¬ w.parseMetadataOk then
    (Except.error (mkConversionError
        ("Failed to parse metadata from file (" ++
          get_error_context "metadata extraction" input_path "" ++ ")")),
      [Event.alloc 0, Event.free 0])
  else
    (Except.ok w.parsedExif, [Event.alloc 0, Event.free 0])

/-- `modify_metadata` of `_core.cpp`.  Buffer ids: 0 the input buffer, 1 the
native output buffer.  Validate, read, parse the existing metadata, overlay
the caller updates item by item with `apply_exif_update`, re-encode through
`gpr_convert_dng_to_dng`, reject an empty output, write the destination
file, then release parameters and both buffers on every exit. -/
def modify_metadata (w : World) (input_path output_path : String)
    (exif_updates : List (String × PyValue)) : Except GPRErr Bool × Trace :=
  match validate_input_file w.fs input_path with
  | Except.error e => (Except.error e, [])
  | Except.ok _ =>
  if ¬ w.readOk input_path then
    (Except.error (mkFileError "Failed to read input file for metadata modification"
        input_path (-1)), [])
  else if ¬ w.parseMetadataOk then
    (Except.error (mkConversionError
        ("Failed to parse existing metadata (" ++
          get_error_context "metadata parsing for modification" input_path "" ++ ")")),
      [Event.alloc 0, Event.free 0])
  else
  let _updated : ExifInfo :=
    exif_updates.foldl (fun acc kv => apply_exif_update acc kv.1 kv.2) w.parsedExif
  match w.convertDngToDng with
  | NativeOutcome.failure =>
      (Except.error (mkConversionError
          ("Failed to convert file with updated metadata (" ++
            get_error_context "DNG conversion with updated metadata" input_path output_path ++
            ")")), [Event.alloc 0, Event.free 0])
  | NativeOutcome.raiseStd msg =>
      (Except.error (mkConversionError
          ("Error modifying metadata: " ++ msg ++ " (" ++
            get_error_context "metadata modification" input_path output_path ++ ")")),
        [Event.alloc 0, Event.free 0])
  | NativeOutcome.raiseUnknown =>
      (Except.error (mkConversionError
          ("Unknown error during metadata modification (" ++
            get_error_context "metadata modification" input_path output_path ++ ")")),
        [Event.alloc 0, Event.free 0])
  | NativeOutcome.success buf =>
    if buf.isNull then
      (Except.error (mkConversionError
          "Conversion with updated metadata produced empty output buffer"),
        [Event.alloc 0, Event.free 0])
    else if buf.byteSize = 0 then
      (Except.error (mkConversionError
          "Conversion with updated metadata produced empty output buffer"),
        [Event.alloc 0, Event.alloc 1, Event.free 0, Event.free 1])
    else if ¬ w.writeOk output_path then
      (Except.error (mkFileError "Failed to write output file with updated metadata"
          output_path (-1)),
        [Event.alloc 0, Event.alloc 1, Event.free 0, Event.free 1])
    else
      (Except.ok true, [Event.alloc 0, Event.alloc 1, Event.free 0, Event.free 1])

/-- A metadata record with default contents, used for concrete instances. -/
def exif0 : ExifInfo :=
  ⟨"", "", "", "", "", "", 0, 0, 0, (0, 1), (0, 1), (0, 1), (0, 1), 0, 0, 0, 0⟩

/-- A native output large enough for the hard-coded 4000 by 3000 uint16
frame: 24000000 bytes of zero samples. -/
def fullBuf : RawBuffer := ⟨false, 24000000, fun _ => ⟨0, by decide⟩⟩

/-- A world in which every step succeeds: every path is an existing 100-byte
file, reads and writes succeed, every native call returns `fullBuf`, and
metadata parsing succeeds. -/
def okWorld : World :=
  { fs := fun _ => some 100
    readOk := fun _ => true
    writeOk := fun _ => true
    convertGprToRaw := NativeOutcome.success fullBuf
    convertGprToDng := NativeOutcome.success fullBuf
    convertDngToDng := NativeOutcome.success fullBuf
    parseMetadataOk := true
    parsedExif := exif0 }

/-- The native output a genuine 640 by 480 uint16 frame occupies:
640*480*2 = 614400 bytes of zero samples. -/
def buf640 : RawBuffer := ⟨false, 614400, fun _ => ⟨0, by decide⟩⟩

/-- A world holding a genuine 640 by 480 raw frame: the native decoder
produces the 614400 bytes such a frame occupies.  The file size itself
(100 bytes of compressed input, from `okWorld`) is irrelevant to the
bridge, which never parses dimensions out of the bytes. -/
def world640 : World :=
  { okWorld with convertGprToRaw := NativeOutcome.success buf640 }

/-- A world whose native conversions throw a `std::exception` with message
text boom. -/
def boomWorld : World :=
  { okWorld with convertGprToRaw := NativeOutcome.raiseStd "boom"
                 convertGprToDng := NativeOutcome.raiseStd "boom" }

/-- A world with no files at all. -/
def missingWorld : World :=
  { okWorld with fs := fun _ => none }

/-- A world with one missing path, one empty file and one 10-byte file. -/
def threeWorld : World :=
  { okWorld with fs := fun p => if p = "missing.gpr" then none
                                else if p = "empty.gpr" then some 0
                                else some 10 }

lemma get_image_info_eq (w : World) (p : String) (base : Nat)
    (hv : validate_input_file w.fs p = Except.ok ()) (hr : w.readOk p = true) :
    get_image_info w p base =
      (Except.ok ⟨4000, 3000, 1, "uint16", 24000000⟩, [Event.alloc base, Event.free base]) := by
  unfold get_image_info
  rw [hv]
  simp [hr]

lemma get_image_info_readfail (w : World) (p : String) (base : Nat)
    (hv : validate_input_file w.fs p = Except.ok ()) (hr : w.readOk p = false) :
    get_image_info w p base =
      (Except.error (mkConversionError ("Failed to read input file: " ++ p)), []) := by
  unfold get_image_info
  rw [hv]
  simp [hr]

lemma get_image_info_ok_inv (w : World) (p : String) (base : Nat) (info : ImageInfo) (tr : Trace)
    (h : get_image_info w p base = (Except.ok info, tr)) :
    info = ⟨4000, 3000, 1, "uint16", 24000000⟩ ∧ tr = [Event.alloc base, Event.free base] ∧
    validate_input_file w.fs p = Except.ok () ∧ w.readOk p = true := by
  unfold get_image_info at h
  split at h
  · simp at h
  · split at h
    · simp at h
      refine ⟨?_, ?_, ?_, ?_⟩
      · exact h.1.symm ▸ rfl
      · exact h.2.symm
      · assumption
      · assumption
    · simp at h

lemma get_raw_image_data_ok_inv (w : World) (p d : String) (arr : PyArray) (tr : Trace)
    (h : get_raw_image_data w p d = (Except.ok arr, tr)) :
    ∃ buf : RawBuffer,
      w.convertGprToRaw = NativeOutcome.success buf ∧
      buf.isNull = false ∧ 24000000 ≤ buf.byteSize ∧
      validate_input_file w.fs p = Except.ok () ∧ w.readOk p = true ∧
      ((d = "uint16" ∧
          arr = { shape := (3000, 4000), strides := (8000, 2),
                  backing := Backing.native 2 buf.word } ∧
          tr = [Event.alloc 0, Event.free 0, Event.alloc 1, Event.alloc 2, Event.free 1]) ∨
       (d = "float32" ∧
          arr = { shape := (3000, 4000), strides := (16000, 4),
                  backing := Backing.host (fun i => ((buf.word i : Nat) : ℚ) / 65535) } ∧
          tr = [Event.alloc 0, Event.free 0, Event.alloc 1, Event.alloc 2, Event.free 1,
                Event.free 2])) := by
  unfold get_raw_image_data at h
  rcases hv : validate_input_file w.fs p with e | u
  · rw [hv] at h; simp at h
  · obtain ⟨⟩ := u
    rw [hv] at h
    by_cases hd : d ≠ "uint16" ∧ d ≠ "float32"
    · rw [if_pos hd] at h; simp at h
    · rw [if_neg hd] at h
      rcases hr : w.readOk p with _ | _
      · rw [get_image_info_readfail w p 0 hv hr] at h; simp at h
      · rw [get_image_info_eq w p 0 hv hr] at h
        simp only [hr] at h
        rcases hc : w.convertGprToRaw with buf | _ | msg | _
        · rw [hc] at h
          rcases hnull : buf.isNull with _ | _
          · simp only [hnull] at h
            by_cases hz : buf.byteSize = 0
            · simp [hz] at h
            · by_cases hlt : buf.byteSize < 4000 * 3000 * 2
              · simp [hz, hlt] at h
              · by_cases hu : d = "uint16"
                · simp only [hz, hlt, hu, if_false, if_true, ite_true, ite_false] at h
                  simp at h
                  refine ⟨buf, rfl, hnull, by omega, rfl, rfl, Or.inl ⟨hu, ?_, ?_⟩⟩
                  · exact h.1.symm
                  · exact h.2.symm
                · have hf : d = "float32" := by
                    rcases not_and_or.mp hd with h1 | h1
                    · exact absurd (not_not.mp h1) hu
                    · exact not_not.mp h1
                  simp only [hz, hlt, hu, ite_false] at h
                  simp at h
                  refine ⟨buf, rfl, hnull, by omega, rfl, rfl, Or.inr ⟨hf, ?_, ?_⟩⟩
                  · exact h.1.symm
                  · exact h.2.symm
          · simp [hnull] at h
        · rw [hc] at h; simp at h
        · rw [hc] at h; simp at h
        · rw [hc] at h; simp at h

lemma balanced_of_eq {tr tr2 : Trace} (h : tr = tr2) (hb : balanced tr2) :
    balanced tr := by
  rw [h]; exact hb

lemma convert_gpr_to_dng_balanced (w : World) (pin pout : String) :
    balanced (convert_gpr_to_dng w pin pout).2 := by
  unfold convert_gpr_to_dng
  repeat' split
  all_goals simp [balanced, allocCount, freeCount, isAllocEvent, isFreeEvent]

lemma extract_exif_metadata_balanced (w : World) (pin : String) :
    balanced (extract_exif_metadata w pin).2 := by
  unfold extract_exif_metadata
  repeat' split
  all_goals simp [balanced, allocCount, freeCount, isAllocEvent, isFreeEvent]

lemma modify_metadata_balanced (w : World) (pin pout : String)
    (upd : List (String × PyValue)) : balanced (modify_metadata w pin pout upd).2 := by
  unfold modify_metadata
  repeat' split
  all_goals simp [balanced, allocCount, freeCount, isAllocEvent, isFreeEvent]

lemma get_image_info_balanced (w : World) (pin : String) (base : Nat) :
    balanced (get_image_info w pin base).2 := by
  unfold get_image_info
  repeat' split
  all_goals simp [balanced, allocCount, freeCount, isAllocEvent, isFreeEvent]

lemma get_raw_image_data_err_balanced (w : World) (p d : String) (e : GPRErr) (tr : Trace)
    (h : get_raw_image_data w p d = (Except.error e, tr)) : balanced tr := by
  unfold get_raw_image_data at h
  rcases hv : validate_input_file w.fs p with e2 | u
  · rw [hv] at h; simp at h; exact balanced_of_eq h.2 (by decide)
  · rw [hv] at h
    by_cases hd : d ≠ "uint16" ∧ d ≠ "float32"
    · rw [if_pos hd] at h; simp at h; exact balanced_of_eq h.2 (by decide)
    · rw [if_neg hd] at h
      rcases hr : w.readOk p with _ | _
      · rw [get_image_info_readfail w p 0 hv hr] at h
        simp at h; exact balanced_of_eq h.2 (by decide)
      · rw [get_image_info_eq w p 0 hv hr] at h
        simp only [hr] at h
        rcases hc : w.convertGprToRaw with buf | _ | msg | _
        · rw [hc] at h
          rcases hnull : buf.isNull with _ | _
          · simp only [hnull] at h
            by_cases hz : buf.byteSize = 0
            · simp only [hz, if_true, ite_true] at h
              simp at h
              exact balanced_of_eq h.2.symm (by decide)
            · by_cases hlt : buf.byteSize < 4000 * 3000 * 2
              · simp only [hz, hlt, ite_true, ite_false, if_true, if_false] at h
                simp at h
                exact balanced_of_eq h.2.symm (by decide)
              · by_cases hu : d = "uint16"
                · simp [hz, hlt, hu] at h
                · simp [hz, hlt, hu] at h
          · simp only [hnull] at h
            simp at h
            exact balanced_of_eq h.2.symm (by decide)
        · rw [hc] at h; simp at h; exact balanced_of_eq h.2.symm (by decide)
        · rw [hc] at h; simp at h; exact balanced_of_eq h.2.symm (by decide)
        · rw [hc] at h; simp at h; exact balanced_of_eq h.2.symm (by decide)

/-- Recognizer for the ParameterError kind. -/
def isParameterError : GPRErr → Bool
  | GPRErr.ParameterError _ _ => true
  | _ => false

lemma validate_input_file_missing (fs : String → Option Nat) (p : String) (h : fs p = none) :
    validate_input_file fs p =
      Except.error (mkFileError ("Input file does not exist or cannot be accessed: " ++ p)
        p (-2)) := by
  unfold validate_input_file; rw [h]

lemma validate_input_file_empty (fs : String → Option Nat) (p : String) (h : fs p = some 0) :
    validate_input_file fs p =
      Except.error (mkFileError ("Input file is empty or corrupted: " ++ p) p (-4)) := by
  unfold validate_input_file; rw [h]; simp

lemma validate_input_file_ok_iff (fs : String → Option Nat) (p : String) :
    validate_input_file fs p = Except.ok () ↔ ∃ n, fs p = some n ∧ 0 < n := by
  unfold validate_input_file
  rcases h : fs p with _ | n
  · simp
  · by_cases hn : n = 0
    · subst hn; simp
    · simp [hn]
      omega

lemma validate_input_file_no_param (fs : String → Option Nat) (p : String) (e : GPRErr)
    (h : validate_input_file fs p = Except.error e) : isParameterError e = false := by
  unfold validate_input_file at h
  split at h
  · simp at h; rw [← h]; rfl
  · split at h
    · simp at h; rw [← h]; rfl
    · simp at h

lemma convert_gpr_to_dng_validate_err (w : World) (pin pout : String) (e : GPRErr)
    (hv : validate_input_file w.fs pin = Except.error e) :
    convert_gpr_to_dng w pin pout = (Except.error e, []) := by
  unfold convert_gpr_to_dng; rw [hv]

lemma extract_exif_metadata_validate_err (w : World) (pin : String) (e : GPRErr)
    (hv : validate_input_file w.fs pin = Except.error e) :
    extract_exif_metadata w pin = (Except.error e, []) := by
  unfold extract_exif_metadata; rw [hv]

lemma modify_metadata_validate_err (w : World) (pin pout : String)
    (upd : List (String × PyValue)) (e : GPRErr)
    (hv : validate_input_file w.fs pin = Except.error e) :
    modify_metadata w pin pout upd = (Except.error e, []) := by
  unfold modify_metadata; rw [hv]

lemma get_image_info_validate_err (w : World) (pin : String) (base : Nat) (e : GPRErr)
    (hv : validate_input_file w.fs pin = Except.error e) :
    get_image_info w pin base = (Except.error e, []) := by
  unfold get_image_info; rw [hv]

lemma get_raw_image_data_validate_err (w : World) (pin d : String) (e : GPRErr)
    (hv : validate_input_file w.fs pin = Except.error e) :
    get_raw_image_data w pin d = (Except.error e, []) := by
  unfold get_raw_image_data; rw [hv]

lemma modify_metadata_no_param_err (w : World) (pin pout : String)
    (upd : List (String × PyValue)) (e : GPRErr) (tr : Trace)
    (h : modify_metadata w pin pout upd = (Except.error e, tr)) :
    isParameterError e = false := by
  unfold modify_metadata at h
  rcases hv : validate_input_file w.fs pin with e2 | u
  · rw [hv] at h
    simp at h
    exact h.1 ▸ validate_input_file_no_param w.fs pin e2 hv
  · rw [hv] at h
    rcases hr : w.readOk pin with _ | _
    · simp [hr] at h
      rw [← h.1]; rfl
    · rcases hm : w.parseMetadataOk with _ | _
      · simp [hr, hm] at h
        rw [← h.1]; rfl
      · simp only [hr, hm] at h
        rcases hc : w.convertDngToDng with buf | _ | msg | _
        · rw [hc] at h
          rcases hnull : buf.isNull with _ | _
          · simp only [hnull] at h
            by_cases hz : buf.byteSize = 0
            · simp [hz] at h
              rw [← h.1]; rfl
            · rcases hw : w.writeOk pout with _ | _
              · simp [hz, hw] at h
                rw [← h.1]; rfl
              · simp [hz, hw] at h
          · simp [hnull] at h
            rw [← h.1]; rfl
        · rw [hc] at h; simp at h; rw [← h.1]; rfl
        · rw [hc] at h; simp at h; rw [← h.1]; rfl
        · rw [hc] at h; simp at h; rw [← h.1]; rfl

lemma get_raw_image_data_raiseStd_eq (w : World) (p d msg : String)
    (hv : validate_input_file w.fs p = Except.ok ()) (hr : w.readOk p = true)
    (hc : w.convertGprToRaw = NativeOutcome.raiseStd msg)
    (hd : d = "uint16" ∨ d = "float32") :
    get_raw_image_data w p d =
      (Except.error (mkConversionError
        ("Error extracting raw image data: " ++ msg ++ " (" ++
          get_error_context "raw image data extraction" p "" ++ ")")),
        [Event.alloc 0, Event.free 0, Event.alloc 1, Event.free 1]) := by
  unfold get_raw_image_data
  rw [hv]
  have hdn : ¬(d ≠ "uint16" ∧ d ≠ "float32") := by
    rcases hd with h1 | h1 <;> simp [h1]
  rw [if_neg hdn, get_image_info_eq w p 0 hv hr]
  simp [hr, hc]

lemma convert_gpr_to_dng_raiseStd_eq (w : World) (pin pout msg : String)
    (hv : validate_input_file w.fs pin = Except.ok ()) (hr : w.readOk pin = true)
    (hc : w.convertGprToDng = NativeOutcome.raiseStd msg) :
    convert_gpr_to_dng w pin pout =
      (Except.error (mkConversionError
        ("Unexpected error during conversion: " ++ msg ++ " (" ++
          get_error_context "GPR to DNG conversion" pin pout ++ ")")),
        [Event.alloc 0, Event.free 0]) := by
  unfold convert_gpr_to_dng
  rw [hv]
  simp [hr, hc]

lemma get_raw_image_data_bad_dtype (w : World) (p d : String)
    (hv : validate_input_file w.fs p = Except.ok ())
    (h1 : d ≠ "uint16") (h2 : d ≠ "float32") :
    get_raw_image_data w p d =
      (Except.error (mkParameterError
        ("Unsupported dtype " ++ d ++ ". Supported types: " ++
          String.intercalate ", " ["uint16", "float32"]) "dtype"), []) := by
  unfold get_raw_image_data
  rw [hv, if_pos ⟨h1, h2⟩]

lemma get_raw_image_data_guard_err (w : World) (p d : String) (buf : RawBuffer)
    (hv : validate_input_file w.fs p = Except.ok ()) (hr : w.readOk p = true)
    (hc : w.convertGprToRaw = NativeOutcome.success buf)
    (hnull : buf.isNull = false) (hz : buf.byteSize ≠ 0)
    (hlt : buf.byteSize < 24000000) (hd : d = "uint16" ∨ d = "float32") :
    ∃ m, get_raw_image_data w p d =
      (Except.error (GPRErr.FormatError m ""),
        [Event.alloc 0, Event.free 0, Event.alloc 1, Event.alloc 2, Event.free 1,
         Event.free 2]) := by
  unfold get_raw_image_data
  rw [hv]
  have hdn : ¬(d ≠ "uint16" ∧ d ≠ "float32") := by
    rcases hd with h1 | h1 <;> simp [h1]
  rw [if_neg hdn, get_image_info_eq w p 0 hv hr]
  have hlt2 : buf.byteSize < 4000 * 3000 * 2 := by omega
  simp [hr, hc, hnull, hz, hlt2, mkFormatError]

lemma apply_exif_update_unknown (exif : ExifInfo) (key : String) (v : PyValue)
    (h : key ∉ recognized_exif_keys) : apply_exif_update exif key v = exif := by
  simp only [recognized_exif_keys, List.mem_cons, List.mem_singleton, not_or] at h
  obtain ⟨h1, h2, h3, h4, h5, h6, h7, h8, h9, h10, h11, h12, h13, h14, h15, h16, h17⟩ := h
  unfold apply_exif_update
  simp [h1, h2, h3, h4, h5, h6, h7, h8, h9, h10, h11, h12, h13, h14, h15, h16, h17]

/-- The array the uint16 extraction returns on `okWorld`. -/
def arrU16 : PyArray :=
  { shape := (3000, 4000), strides := (8000, 2), backing := Backing.native 2 fullBuf.word }

/-- The trace the uint16 extraction leaves on `okWorld`. -/
def trU16 : Trace :=
  [Event.alloc 0, Event.free 0, Event.alloc 1, Event.alloc 2, Event.free 1]

/-- The array the float32 extraction returns on `okWorld`. -/
def arrF32 : PyArray :=
  { shape := (3000, 4000), strides := (16000, 4),
    backing := Backing.host (fun i => ((fullBuf.word i : Nat) : ℚ) / 65535) }

/-- The trace the float32 extraction leaves on `okWorld`. -/
def trF32 : Trace :=
  [Event.alloc 0, Event.free 0, Event.alloc 1, Event.alloc 2, Event.free 1, Event.free 2]

/-- C1: whenever `get_raw_image_data` succeeds with requested type uint16,
the returned view is backed by the native output buffer itself (allocation
id 2, the buffer `gpr_convert_gpr_to_raw` filled), that buffer really was
acquired during the operation, and no Free of it occurs anywhere in the
operation trace — neither in the view construction nor in the cleanup
step — so the buffer is never released before the view is and no
use-after-free is reachable through the view. -/
theorem spec_c1_uint16_view_owns_buffer (w : World) (p : String) (arr : PyArray) (tr : Trace)
    (h : get_raw_image_data w p "uint16" = (Except.ok arr, tr)) :
    (∃ word, arr.backing = Backing.native 2 word) ∧
    Event.alloc 2 ∈ tr ∧ Event.free 2 ∉ tr := by
  obtain ⟨buf, -, -, -, -, -, hcase⟩ := get_raw_image_data_ok_inv w p "uint16" arr tr h
  rcases hcase with ⟨-, harr, htr⟩ | ⟨hd, -, -⟩
  · subst harr; subst htr
    exact ⟨⟨buf.word, rfl⟩, by decide, by decide⟩
  · simp at hd

/-- C1 witness: the concrete successful uint16 extraction on `okWorld`. -/
theorem spec_c1_witness :
    (∃ word, arrU16.backing = Backing.native 2 word) ∧
    Event.alloc 2 ∈ trU16 ∧ Event.free 2 ∉ trU16 :=
  spec_c1_uint16_view_owns_buffer okWorld "in.gpr" arrU16 trU16 rfl

/-- C2 counterexample: on the successful uint16 extraction the operation
performs three Alloc calls but only two Free calls — the transferred native
output buffer is deliberately left unreleased — so the alloc/free counts do
not balance on that exit path. -/
theorem spec_c2_counterexample :
    ¬ balanced (get_raw_image_data okWorld "in.gpr" "uint16").2 := by decide

/-- C2 amended: every modeled operation balances its Alloc and Free calls on
every exit path, except the successful uint16 extraction, where exactly one
buffer (the native output transferred into the view) remains unreleased:
there the Alloc count exceeds the Free count by one. -/
theorem spec_c2_alloc_free_balance (w : World) (pin pout d : String)
    (upd : List (String × PyValue)) :
    balanced (convert_gpr_to_dng w pin pout).2 ∧
    balanced (extract_exif_metadata w pin).2 ∧
    balanced (modify_metadata w pin pout upd).2 ∧
    balanced (get_image_info w pin 0).2 ∧
    (∀ e tr, get_raw_image_data w pin d = (Except.error e, tr) → balanced tr) ∧
    (∀ arr tr, get_raw_image_data w pin "float32" = (Except.ok arr, tr) → balanced tr) ∧
    (∀ arr tr, get_raw_image_data w pin "uint16" = (Except.ok arr, tr) →
      allocCount tr = freeCount tr + 1) := by
  refine ⟨convert_gpr_to_dng_balanced w pin pout, extract_exif_metadata_balanced w pin,
    modify_metadata_balanced w pin pout upd, get_image_info_balanced w pin 0,
    fun e tr h => get_raw_image_data_err_balanced w pin d e tr h, ?_, ?_⟩
  · intro arr tr h
    obtain ⟨buf, -, -, -, -, -, hcase⟩ := get_raw_image_data_ok_inv w pin "float32" arr tr h
    rcases hcase with ⟨hd, -, -⟩ | ⟨-, -, htr⟩
    · simp at hd
    · subst htr; decide
  · intro arr tr h
    obtain ⟨buf, -, -, -, -, -, hcase⟩ := get_raw_image_data_ok_inv w pin "uint16" arr tr h
    rcases hcase with ⟨-, -, htr⟩ | ⟨hd, -, -⟩
    · subst htr; decide
    · simp at hd

/-- C2 witness: balance of a conversion on `okWorld`, and the off-by-one
count of the successful uint16 extraction. -/
theorem spec_c2_witness :
    balanced (convert_gpr_to_dng okWorld "in.gpr" "out.dng").2 ∧
    allocCount trU16 = freeCount trU16 + 1 :=
  ⟨(spec_c2_alloc_free_balance okWorld "in.gpr" "out.dng" "uint16" []).1,
   (spec_c2_alloc_free_balance okWorld "in.gpr" "out.dng" "uint16" []).2.2.2.2.2.2
     arrU16 trU16 rfl⟩

/-- C3: input-path validation, for every operation.  A path that does not
exist or cannot be opened fails with FileError carrying code -2 and the
path as the filepath context; an existing file of size 0 fails with
FileError carrying code -4; validation passes exactly when the path exists
with size greater than zero.  Every modeled operation surfaces the
validation error unchanged. -/
theorem spec_c3_validation (w : World) (p pout d : String) (upd : List (String × PyValue)) :
    (w.fs p = none →
      validate_input_file w.fs p = Except.error
        (mkFileError ("Input file does not exist or cannot be accessed: " ++ p) p (-2)) ∧
      (convert_gpr_to_dng w p pout).1 = Except.error
        (mkFileError ("Input file does not exist or cannot be accessed: " ++ p) p (-2)) ∧
      (extract_exif_metadata w p).1 = Except.error
        (mkFileError ("Input file does not exist or cannot be accessed: " ++ p) p (-2)) ∧
      (modify_metadata w p pout upd).1 = Except.error
        (mkFileError ("Input file does not exist or cannot be accessed: " ++ p) p (-2)) ∧
      (get_image_info w p 0).1 = Except.error
        (mkFileError ("Input file does not exist or cannot be accessed: " ++ p) p (-2)) ∧
      (get_raw_image_data w p d).1 = Except.error
        (mkFileError ("Input file does not exist or cannot be accessed: " ++ p) p (-2))) ∧
    (w.fs p = some 0 →
      validate_input_file w.fs p = Except.error
        (mkFileError ("Input file is empty or corrupted: " ++ p) p (-4)) ∧
      (convert_gpr_to_dng w p pout).1 = Except.error
        (mkFileError ("Input file is empty or corrupted: " ++ p) p (-4)) ∧
      (extract_exif_metadata w p).1 = Except.error
        (mkFileError ("Input file is empty or corrupted: " ++ p) p (-4)) ∧
      (modify_metadata w p pout upd).1 = Except.error
        (mkFileError ("Input file is empty or corrupted: " ++ p) p (-4)) ∧
      (get_image_info w p 0).1 = Except.error
        (mkFileError ("Input file is empty or corrupted: " ++ p) p (-4)) ∧
      (get_raw_image_data w p d).1 = Except.error
        (mkFileError ("Input file is empty or corrupted: " ++ p) p (-4))) ∧
    (validate_input_file w.fs p = Except.ok () ↔ ∃ n, w.fs p = some n ∧ 0 < n) := by
  refine ⟨?_, ?_, validate_input_file_ok_iff w.fs p⟩
  · intro hm
    have hv := validate_input_file_missing w.fs p hm
    exact ⟨hv,
      by rw [convert_gpr_to_dng_validate_err w p pout _ hv],
      by rw [extract_exif_metadata_validate_err w p _ hv],
      by rw [modify_metadata_validate_err w p pout upd _ hv],
      by rw [get_image_info_validate_err w p 0 _ hv],
      by rw [get_raw_image_data_validate_err w p d _ hv]⟩
  · intro hm
    have hv := validate_input_file_empty w.fs p hm
    exact ⟨hv,
      by rw [convert_gpr_to_dng_validate_err w p pout _ hv],
      by rw [extract_exif_metadata_validate_err w p _ hv],
      by rw [modify_metadata_validate_err w p pout upd _ hv],
      by rw [get_image_info_validate_err w p 0 _ hv],
      by rw [get_raw_image_data_validate_err w p d _ hv]⟩

/-- C3 witness: on `threeWorld` a missing path yields -2, an empty file
yields -4, and a 10-byte file passes validation. -/
theorem spec_c3_witness :
    validate_input_file threeWorld.fs "missing.gpr" = Except.error
      (mkFileError "Input file does not exist or cannot be accessed: missing.gpr"
        "missing.gpr" (-2)) ∧
    validate_input_file threeWorld.fs "empty.gpr" = Except.error
      (mkFileError "Input file is empty or corrupted: empty.gpr" "empty.gpr" (-4)) ∧
    validate_input_file threeWorld.fs "good.gpr" = Except.ok () :=
  ⟨((spec_c3_validation threeWorld "missing.gpr" "o.dng" "uint16" []).1 rfl).1,
   ((spec_c3_validation threeWorld "empty.gpr" "o.dng" "uint16" []).2.1 rfl).1,
   (spec_c3_validation threeWorld "good.gpr" "o.dng" "uint16" []).2.2.mpr
     ⟨10, rfl, by decide⟩⟩

/-- C4: whenever `get_raw_image_data` succeeds with requested type float32,
the result is a host-owned array whose element i equals the i-th native
uint16 word divided by 65535 (the maximum value of the native element
width, exact rational semantics of the float division), hence every element
lies in the interval from 0 to 1, and the native output buffer (id 2) is
freed before the operation returns. -/
theorem spec_c4_float32_normalized (w : World) (p : String) (arr : PyArray) (tr : Trace)
    (h : get_raw_image_data w p "float32" = (Except.ok arr, tr)) :
    (∃ buf : RawBuffer, w.convertGprToRaw = NativeOutcome.success buf ∧
      arr.backing = Backing.host (fun i => ((buf.word i : Nat) : ℚ) / 65535)) ∧
    (∀ f, arr.backing = Backing.host f → ∀ i, 0 ≤ f i ∧ f i ≤ 1) ∧
    Event.free 2 ∈ tr := by
  obtain ⟨buf, hc, -, -, -, -, hcase⟩ := get_raw_image_data_ok_inv w p "float32" arr tr h
  rcases hcase with ⟨hd, -, -⟩ | ⟨-, harr, htr⟩
  · simp at hd
  · subst harr; subst htr
    refine ⟨⟨buf, hc, rfl⟩, ?_, by decide⟩
    intro f hf i
    injection hf with hgf
    rw [← hgf]
    constructor
    · positivity
    · rw [div_le_one (by norm_num)]
      have hb : (buf.word i).val ≤ 65535 := Nat.lt_succ_iff.mp (buf.word i).isLt
      exact_mod_cast hb

/-- C4 witness: the concrete successful float32 extraction on `okWorld`. -/
theorem spec_c4_witness :
    (∃ buf : RawBuffer, okWorld.convertGprToRaw = NativeOutcome.success buf ∧
      arrF32.backing = Backing.host (fun i => ((buf.word i : Nat) : ℚ) / 65535)) ∧
    (∀ f, arrF32.backing = Backing.host f → ∀ i, 0 ≤ f i ∧ f i ≤ 1) ∧
    Event.free 2 ∈ trF32 :=
  spec_c4_float32_normalized okWorld "in.gpr" arrF32 trF32 rfl

/-- C5 counterexample: on a genuine 640 by 480 input (native output of
614400 bytes) the uint16 extraction does not return a view of shape
(480, 640) — it fails the hard-coded 24000000-byte guard with FormatError,
because `get_image_info` reports 4000 by 3000 regardless of the input. -/
theorem spec_c5_counterexample :
    (get_raw_image_data world640 "in640.gpr" "uint16").1 =
      Except.error (mkFormatError
        "Output buffer size (614400) is smaller than expected (24000000)" "") := by rfl

/-- C5 amended: whenever the uint16 extraction succeeds, the view has the
hard-coded shape (3000, 4000) with row-major strides (width times element
size, element size) = (8000, 2), it is backed directly by the native output
buffer, and the operation performs no pixel-data allocation beyond the
three buffer acquisitions (two file reads and the native conversion
output). -/
theorem spec_c5_uint16_layout (w : World) (p : String) (arr : PyArray) (tr : Trace)
    (h : get_raw_image_data w p "uint16" = (Except.ok arr, tr)) :
    arr.shape = (3000, 4000) ∧ arr.strides = (8000, 2) ∧
    (∃ word, arr.backing = Backing.native 2 word) ∧
    allocCount tr = 3 := by
  obtain ⟨buf, -, -, -, -, -, hcase⟩ := get_raw_image_data_ok_inv w p "uint16" arr tr h
  rcases hcase with ⟨-, harr, htr⟩ | ⟨hd, -, -⟩
  · subst harr; subst htr
    exact ⟨rfl, rfl, ⟨buf.word, rfl⟩, by decide⟩
  · simp at hd

/-- C5 witness: the concrete successful uint16 extraction on `okWorld`. -/
theorem spec_c5_witness :
    arrU16.shape = (3000, 4000) ∧ arrU16.strides = (8000, 2) ∧
    (∃ word, arrU16.backing = Backing.native 2 word) ∧ allocCount trU16 = 3 :=
  spec_c5_uint16_layout okWorld "in.gpr" arrU16 trU16 rfl

/-- C6 counterexample: with a nonexistent input path and the unsupported
dtype int8, `get_raw_image_data` fails with FileError -2 from the path
validation that runs first, not with ParameterError — so the claim does not
hold for every input path. -/
theorem spec_c6_counterexample :
    (get_raw_image_data missingWorld "nofile.gpr" "int8").1 =
      Except.error (mkFileError "Input file does not exist or cannot be accessed: nofile.gpr"
        "nofile.gpr" (-2)) := by rfl

/-- C6 amended: for every input path that passes file validation and every
requested type outside the supported set, `get_raw_image_data` fails with a
ParameterError whose parameter name is dtype and whose message lists
exactly the supported set (uint16, float32, joined from the supported
list). -/
theorem spec_c6_unsupported_dtype (w : World) (p d : String)
    (hv : validate_input_file w.fs p = Except.ok ())
    (h1 : d ≠ "uint16") (h2 : d ≠ "float32") :
    (get_raw_image_data w p d).1 =
      Except.error (mkParameterError
        ("Unsupported dtype " ++ d ++ ". Supported types: " ++
          String.intercalate ", " ["uint16", "float32"]) "dtype") := by
  rw [get_raw_image_data_bad_dtype w p d hv h1 h2]

/-- C6 witness: dtype int8 on an existing non-empty file. -/
theorem spec_c6_witness :
    (get_raw_image_data threeWorld "good.gpr" "int8").1 =
      Except.error (mkParameterError
        ("Unsupported dtype " ++ "int8" ++ ". Supported types: " ++
          String.intercalate ", " ["uint16", "float32"]) "dtype") :=
  spec_c6_unsupported_dtype threeWorld "good.gpr" "int8" rfl (by decide) (by decide)

/-- C7 counterexample: a metadata modification whose overrides contain only
the unrecognised key unknown_field succeeds and returns true — no
ParameterError, or any error, is raised for the unknown field name. -/
theorem spec_c7_counterexample :
    modify_metadata okWorld "in.gpr" "out.gpr" [("unknown_field", PyValue.int 1)] =
      (Except.ok true, [Event.alloc 0, Event.alloc 1, Event.free 0, Event.free 1]) := by rfl

/-- C7 amended: caller overrides are overlaid field by field, but a field
name outside the recognised set is silently ignored (the overlay leaves the
record unchanged for that item), and `modify_metadata` never surfaces a
ParameterError on any path. -/
theorem spec_c7_unknown_field_ignored (w : World) (pin pout key : String) (v : PyValue)
    (upd : List (String × PyValue)) (exif : ExifInfo) (e : GPRErr) (tr : Trace) :
    (key ∉ recognized_exif_keys → apply_exif_update exif key v = exif) ∧
    (modify_metadata w pin pout upd = (Except.error e, tr) → isParameterError e = false) :=
  ⟨fun h => apply_exif_update_unknown exif key v h,
   fun h => modify_metadata_no_param_err w pin pout upd e tr h⟩

/-- C7 witness: the unknown key leaves the record unchanged, and a concrete
failing run surfaces a non-ParameterError error. -/
theorem spec_c7_witness :
    apply_exif_update exif0 "unknown_field" (PyValue.int 1) = exif0 ∧
    isParameterError (mkFileError "Input file does not exist or cannot be accessed: nofile.gpr"
      "nofile.gpr" (-2)) = false :=
  ⟨(spec_c7_unknown_field_ignored missingWorld "nofile.gpr" "o.gpr" "unknown_field"
      (PyValue.int 1) [] exif0
      (mkFileError "Input file does not exist or cannot be accessed: nofile.gpr"
        "nofile.gpr" (-2)) []).1 (by decide),
   (spec_c7_unknown_field_ignored missingWorld "nofile.gpr" "o.gpr" "unknown_field"
      (PyValue.int 1) [] exif0
      (mkFileError "Input file does not exist or cannot be accessed: nofile.gpr"
        "nofile.gpr" (-2)) []).2 rfl⟩

/-- C8 counterexample: a std exception with message boom thrown inside the
wrapped native call is re-expressed as a ConversionError (the catch block
wraps it in GPRConversionError), not as the GenericError base kind the
claim names; the original message is embedded in the wrapped text. -/
theorem spec_c8_counterexample :
    (get_raw_image_data boomWorld "in.gpr" "uint16").1 =
      Except.error (GPRErr.ConversionError
        "GPR Conversion Error: Error extracting raw image data: boom (Operation: raw image data extraction, Input: in.gpr)"
        0) := by rfl

/-- C8 amended: an exception with no specific mapping raised inside the
wrapped native call is re-expressed as exactly one typed error with the
original message text preserved inside the wrapped message; the kind is
ConversionError (the GenericError base is used only for setup-phase
failures, outside the operation body). -/
theorem spec_c8_unmapped_wrapped (w : World) (pin pout msg : String)
    (hv : validate_input_file w.fs pin = Except.ok ()) (hr : w.readOk pin = true)
    (hdng : w.convertGprToDng = NativeOutcome.raiseStd msg)
    (hraw : w.convertGprToRaw = NativeOutcome.raiseStd msg) :
    (∃ pre post, (convert_gpr_to_dng w pin pout).1 =
      Except.error (GPRErr.ConversionError (pre ++ msg ++ post) 0)) ∧
    (∃ pre post, (get_raw_image_data w pin "uint16").1 =
      Except.error (GPRErr.ConversionError (pre ++ msg ++ post) 0)) := by
  constructor
  · refine ⟨"GPR Conversion Error: " ++ "Unexpected error during conversion: ",
      " (" ++ get_error_context "GPR to DNG conversion" pin pout ++ ")", ?_⟩
    rw [convert_gpr_to_dng_raiseStd_eq w pin pout msg hv hr hdng]
    simp [mkConversionError, String.append_assoc]
    rw [← String.append_assoc]
    rfl
  · refine ⟨"GPR Conversion Error: " ++ "Error extracting raw image data: ",
      " (" ++ get_error_context "raw image data extraction" pin "" ++ ")", ?_⟩
    rw [get_raw_image_data_raiseStd_eq w pin "uint16" msg hv hr hraw (Or.inl rfl)]
    simp [mkConversionError, String.append_assoc]
    rw [← String.append_assoc]
    rfl

/-- C8 witness: the boom exception on `boomWorld`, wrapped once with the
message preserved, in both the conversion and the extraction. -/
theorem spec_c8_witness :
    (∃ pre post, (convert_gpr_to_dng boomWorld "in.gpr" "out.dng").1 =
      Except.error (GPRErr.ConversionError (pre ++ "boom" ++ post) 0)) ∧
    (∃ pre post, (get_raw_image_data boomWorld "in.gpr" "uint16").1 =
      Except.error (GPRErr.ConversionError (pre ++ "boom" ++ post) 0)) :=
  spec_c8_unmapped_wrapped boomWorld "in.gpr" "out.dng" "boom" rfl rfl rfl rfl

/-- C9: buffer cleanup is idempotent and a release of an already-released
buffer is a no-op, never a fault: applying `cleanup_buffer_safe` twice
leaves the same state as applying it once, the second application performs
no allocator call, and on a non-null buffer the first application frees the
pointer exactly once, then nulls it and zeroes the size. -/
theorem spec_c9_cleanup_idempotent (b : GprBuffer) :
    (cleanup_buffer_safe (cleanup_buffer_safe b).1).1 = (cleanup_buffer_safe b).1 ∧
    (cleanup_buffer_safe (cleanup_buffer_safe b).1).2 = [] ∧
    (∀ id, b.pointer = some id →
      (cleanup_buffer_safe b).1 = ⟨none, 0⟩ ∧
      (cleanup_buffer_safe b).2 = [Event.free id]) := by
  rcases b with ⟨ptr, s⟩
  rcases ptr with _ | id <;> simp [cleanup_buffer_safe]

/-- C9 witness: the buffer with pointer 7 and size 42. -/
theorem spec_c9_witness :
    (cleanup_buffer_safe (cleanup_buffer_safe ⟨some 7, 42⟩).1).1 =
      (cleanup_buffer_safe ⟨some 7, 42⟩).1 ∧
    (cleanup_buffer_safe (cleanup_buffer_safe ⟨some 7, 42⟩).1).2 = [] ∧
    (cleanup_buffer_safe ⟨some 7, 42⟩).1 = ⟨none, 0⟩ ∧
    (cleanup_buffer_safe ⟨some 7, 42⟩).2 = [Event.free 7] :=
  ⟨(spec_c9_cleanup_idempotent ⟨some 7, 42⟩).1,
   (spec_c9_cleanup_idempotent ⟨some 7, 42⟩).2.1,
   ((spec_c9_cleanup_idempotent ⟨some 7, 42⟩).2.2 7 rfl).1,
   ((spec_c9_cleanup_idempotent ⟨some 7, 42⟩).2.2 7 rfl).2⟩

/-- C10: for every existing, non-empty, readable input file — regardless of
its bytes, which the bridge never parses for dimensions — `get_image_info`
returns the hard-coded constants width 4000, height 3000, channels 1,
format uint16, data size 24000000; every array `get_raw_image_data` returns
has shape (3000, 4000); and its buffer-size guard rejects any native output
smaller than 4000 times 3000 times 2 bytes with FormatError, regardless of
the true dimensions of the file. -/
theorem spec_c10_hardcoded_info (w : World) (p d : String) (n : Nat) (buf : RawBuffer) :
    (w.fs p = some n → n ≠ 0 → w.readOk p = true →
      get_image_info w p 0 = (Except.ok ⟨4000, 3000, 1, "uint16", 24000000⟩,
        [Event.alloc 0, Event.free 0])) ∧
    (∀ arr tr, get_raw_image_data w p d = (Except.ok arr, tr) → arr.shape = (3000, 4000)) ∧
    (validate_input_file w.fs p = Except.ok () → w.readOk p = true →
      w.convertGprToRaw = NativeOutcome.success buf → buf.isNull = false →
      buf.byteSize ≠ 0 → buf.byteSize < 24000000 → (d = "uint16" ∨ d = "float32") →
      ∃ m tr, get_raw_image_data w p d =
        (Except.error (GPRErr.FormatError m ""), tr)) := by
  refine ⟨?_, ?_, ?_⟩
  · intro hs hn hr
    exact get_image_info_eq w p 0
      ((validate_input_file_ok_iff w.fs p).mpr ⟨n, hs, Nat.pos_of_ne_zero hn⟩) hr
  · intro arr tr h
    obtain ⟨buf2, -, -, -, -, -, hcase⟩ := get_raw_image_data_ok_inv w p d arr tr h
    rcases hcase with ⟨-, harr, -⟩ | ⟨-, harr, -⟩ <;> subst harr <;> rfl
  · intro hv hr hc hnull hz hlt hd
    obtain ⟨m, hm⟩ := get_raw_image_data_guard_err w p d buf hv hr hc hnull hz hlt hd
    exact ⟨m, _, hm⟩

/-- C10 witness: the constants on `okWorld`, and the guard firing on the
real 640 by 480 frame of `world640`. -/
theorem spec_c10_witness :
    get_image_info okWorld "in.gpr" 0 = (Except.ok ⟨4000, 3000, 1, "uint16", 24000000⟩,
      [Event.alloc 0, Event.free 0]) ∧
    arrU16.shape = (3000, 4000) ∧
    (∃ m tr, get_raw_image_data world640 "in640.gpr" "uint16" =
      (Except.error (GPRErr.FormatError m ""), tr)) :=
  ⟨(spec_c10_hardcoded_info okWorld "in.gpr" "uint16" 100 fullBuf).1 rfl (by decide) rfl,
   (spec_c10_hardcoded_info okWorld "in.gpr" "uint16" 100 fullBuf).2.1 arrU16 trU16 rfl,
   (spec_c10_hardcoded_info world640 "in640.gpr" "uint16" 100 buf640).2.2 rfl rfl rfl rfl
     (by decide) (by decide) (Or.inl rfl)⟩

end PythonGpr
